import Mathlib

/-!
# Blood-donation coordination backend: shallow embedding

A shallow embedding of `backend/server.py` (FastAPI + MongoDB).  The four
Mongo collections (`users`, `blood_alerts`, `donor_responses`,
`email_notifications`) become four lists in a `Store`; `insert_one` appends,
`find_one` is `List.find?`, `find(query).to_list(n)` is `filter` + `take n`,
`update_one` updates the first matching record, `sort` is a stable
`mergeSort`.  Datetimes are modelled as integers counting seconds
(`timedelta(hours=h)` = `h * 3600`, `timedelta(days=d)` = `d * 86400`);
document ids (uuid4 in the source) are drawn from a `nextId` counter in the
store.  Each route handler becomes a function from its inputs and the store
to `Except HError output × Store`; an `HTTPException` corresponds to the
`.error` case and, since every `raise` in the source happens before any
write, the store is returned unchanged there.
-/

/-- HTTP error, as raised by `HTTPException(status_code=..., detail=...)`. -/
structure HError where
  status_code : Nat
  detail : String
deriving DecidableEq, Repr

/-- GeoJSON point dictionary `{"type": "Point", "coordinates": [...]}`. -/
structure GeoJSON where
  type : String
  coordinates : List Int
deriving DecidableEq, Repr

/-- `User` model (server.py lines 65-78), plus the hashed password stored
alongside it by `register`. -/
structure User where
  id : Nat
  email : String
  name : String
  role : String
  phone : Option String
  hospital_name : Option String
  hospital_address : Option String
  blood_type : Option String
  city : Option String
  location : Option GeoJSON
  last_donation_date : Option Int
  is_available : Bool
  created_at : Int
deriving DecidableEq, Repr

/-- `BloodAlert` model (server.py lines 80-92). -/
structure BloodAlert where
  id : Nat
  hospital_id : Nat
  hospital_name : String
  blood_type : String
  units_needed : Int
  urgency_level : String
  description : Option String
  location : GeoJSON
  radius_km : Int
  status : String
  created_at : Int
  expires_at : Option Int
deriving DecidableEq, Repr

/-- `BloodAlertCreate` request body (server.py lines 94-99). -/
structure BloodAlertCreate where
  blood_type : String
  units_needed : Int
  urgency_level : String
  description : Option String
  radius_km : Int
deriving DecidableEq, Repr

/-- `DonorResponse` model (server.py lines 101-110). -/
structure DonorResponse where
  id : Nat
  alert_id : Nat
  donor_id : Nat
  donor_name : String
  donor_email : String
  donor_phone : Option String
  response : String
  message : Option String
  responded_at : Int
deriving DecidableEq, Repr

/-- `DonorResponseCreate` request body (server.py lines 112-114). -/
structure DonorResponseCreate where
  response : String
  message : Option String
deriving DecidableEq, Repr

/-- `MockEmailNotification` model (server.py lines 116-124). -/
structure MockEmailNotification where
  id : Nat
  to_email : String
  to_name : String
  subject : String
  body : String
  alert_id : Nat
  sent_at : Int
  status : String
deriving DecidableEq, Repr

/-- The document store: the four Mongo collections, plus the id counter
standing in for uuid4 generation. -/
structure Store where
  users : List User
  blood_alerts : List BloodAlert
  donor_responses : List DonorResponse
  email_notifications : List MockEmailNotification
  nextId : Nat
deriving DecidableEq, Repr

/-- Mongo `update_one`: rewrite the first element satisfying `p`. -/
def updateFirst (p : α → Bool) (f : α → α) : List α → List α
  | [] => []
  | x :: xs => if p x then f x :: xs else x :: updateFirst p f xs

/-- Python `s or default` on an optional string: `None` and the empty
string both fall back to the default (used for `alert.description or
'Emergency blood requirement'`). -/
def orDefault (s : Option String) (d : String) : String :=
  match s with
  | none => d
  | some x => if x = "" then d else x

/-- The `MockEmailNotification(...)` value built by
`send_mock_email_notification` (server.py lines 172-196). -/
def mkEmailNotification (n : Nat) (donor : User) (alert : BloodAlert)
    (now : Int) : MockEmailNotification :=
  { id := n
    to_email := donor.email
    to_name := donor.name
    subject := "🩸 URGENT: " ++ alert.blood_type ++ " Blood Needed at "
      ++ alert.hospital_name
    body := "\nDear " ++ donor.name ++ ",\n\nWe urgently need your help! "
      ++ alert.hospital_name ++ " has requested "
      ++ toString alert.units_needed ++ " units of " ++ alert.blood_type
      ++ " blood.\n\nUrgency Level: " ++ alert.urgency_level.toUpper
      ++ "\nDescription: "
      ++ orDefault alert.description "Emergency blood requirement"
      ++ "\n\nYour blood type matches and you are within the search radius. "
      ++ "If you are available to donate, please respond as soon as possible."
      ++ "\n\nTo respond to this alert, please log in to the Blood Donation "
      ++ "Portal.\n\nThank you for your willingness to save lives!\n\n"
      ++ "Best regards,\nBlood Donation Alert System\n        "
    alert_id := alert.id
    sent_at := now
    status := "sent" }

/-- `send_mock_email_notification`: build the notification and
`insert_one` it into `email_notifications`. -/
def sendMockEmailNotification (donor : User) (alert : BloodAlert) (now : Int)
    (s : Store) : MockEmailNotification × Store :=
  let e := mkEmailNotification s.nextId donor alert now
  (e, { s with email_notifications := s.email_notifications ++ [e],
               nextId := s.nextId + 1 })

/-- The donation-recency disjunct of the matching query (server.py lines
301-306): `last_donation_date < now - 90 days`, or no donation recorded. -/
def donationRecencyOk (now : Int) (ldd : Option Int) : Bool :=
  match ldd with
  | some d => decide (d < now - 90 * 86400)
  | none => true

/-- The full donor-matching query of `notify_matching_donors` (server.py
lines 295-306): role `donor`, blood type equal to the alert's, available,
and donation recency. -/
def userMatches (alert : BloodAlert) (now : Int) (u : User) : Bool :=
  u.role == "donor" && u.blood_type == some alert.blood_type
    && u.is_available && donationRecencyOk now u.last_donation_date

/-- `notify_matching_donors` (server.py lines 292-314): run the matching
query (`to_list(100)` caps the result at 100 documents) and send one mock
email per matching donor. -/
def notifyMatchingDonors (alert : BloodAlert) (now : Int) (s : Store) :
    Store :=
  let matching := (s.users.filter (userMatches alert now)).take 100
  matching.foldl (fun st d => (sendMockEmailNotification d alert now st).2) s

/-- `create_blood_alert` (server.py lines 257-290): hospital-staff only;
location hardcoded to the origin; expiry 2h/6h/24h by urgency; insert the
alert, then notify matching donors. -/
def createBloodAlert (alert_data : BloodAlertCreate) (current_user : User)
    (now : Int) (s : Store) : Except HError BloodAlert × Store :=
  if current_user.role ≠ "hospital_staff" then
    (.error ⟨403, "Only hospital staff can create alerts"⟩, s)
  else
    let expiry : Int :=
      if alert_data.urgency_level = "critical" then now + 2 * 3600
      else if alert_data.urgency_level = "high" then now + 6 * 3600
      else now + 24 * 3600
    let alert : BloodAlert :=
      { id := s.nextId
        hospital_id := current_user.id
        hospital_name := current_user.hospital_name.getD ""
        blood_type := alert_data.blood_type
        units_needed := alert_data.units_needed
        urgency_level := alert_data.urgency_level
        description := alert_data.description
        location := { type := "Point", coordinates := [0, 0] }
        radius_km := alert_data.radius_km
        status := "active"
        created_at := now
        expires_at := some expiry }
    let s1 : Store := { s with blood_alerts := s.blood_alerts ++ [alert],
                               nextId := s.nextId + 1 }
    (.ok alert, notifyMatchingDonors alert now s1)

/-- `respond_to_alert` (server.py lines 338-376): donor only; 404 if the
alert id is absent; 400 if this donor already responded to this alert;
otherwise insert the response verbatim and, exactly when the response
string is `"available"`, flip the donor's availability and stamp their
last donation date. -/
def respondToAlert (alert_id : Nat) (response_data : DonorResponseCreate)
    (current_user : User) (now : Int) (s : Store) :
    Except HError DonorResponse × Store :=
  if current_user.role ≠ "donor" then
    (.error ⟨403, "Only donors can respond to alerts"⟩, s)
  else
    match s.blood_alerts.find? (fun a => a.id == alert_id) with
    | none => (.error ⟨404, "Alert not found"⟩, s)
    | some _ =>
      match s.donor_responses.find?
          (fun r => r.alert_id == alert_id && r.donor_id == current_user.id) with
      | some _ =>
        (.error ⟨400, "You have already responded to this alert"⟩, s)
      | none =>
        let response : DonorResponse :=
          { id := s.nextId
            alert_id := alert_id
            donor_id := current_user.id
            donor_name := current_user.name
            donor_email := current_user.email
            donor_phone := current_user.phone
            response := response_data.response
            message := response_data.message
            responded_at := now }
        let s1 : Store :=
          { s with donor_responses := s.donor_responses ++ [response],
                   nextId := s.nextId + 1 }
        let upd : User → User := fun v =>
          { v with is_available := false, last_donation_date := some now }
        let s2 : Store :=
          if response_data.response = "available" then
            { s1 with users :=
                updateFirst (fun v => v.id == current_user.id) upd s1.users }
          else s1
        (.ok response, s2)

/-- `get_blood_alerts` (server.py lines 316-328): hospital staff see their
own alerts (newest first, up to 100); donors see active alerts for their
blood type (newest first, up to 50). -/
def getBloodAlerts (current_user : User) (s : Store) :
    Except HError (List BloodAlert) × Store :=
  if current_user.role = "hospital_staff" then
    (.ok (((s.blood_alerts.filter
        (fun a => a.hospital_id == current_user.id)).mergeSort
        (fun a b => decide (b.created_at ≤ a.created_at))).take 100), s)
  else
    (.ok (((s.blood_alerts.filter
        (fun a => some a.blood_type == current_user.blood_type
          && a.status == "active")).mergeSort
        (fun a b => decide (b.created_at ≤ a.created_at))).take 50), s)

/-- `get_alert_details` (server.py lines 330-335): look the alert up by id;
404 when absent.  The authenticated user is not consulted. -/
def getAlertDetails (alert_id : Nat) (current_user : User) (s : Store) :
    Except HError BloodAlert × Store :=
  match s.blood_alerts.find? (fun a => a.id == alert_id) with
  | none => (.error ⟨404, "Alert not found"⟩, s)
  | some a => (.ok a, s)

/-- `get_alert_responses` (server.py lines 378-389): hospital staff only,
and only for their own alert; responses newest first, up to 100. -/
def getAlertResponses (alert_id : Nat) (current_user : User) (s : Store) :
    Except HError (List DonorResponse) × Store :=
  if current_user.role ≠ "hospital_staff" then
    (.error ⟨403, "Access denied"⟩, s)
  else
    match s.blood_alerts.find?
        (fun a => a.id == alert_id && a.hospital_id == current_user.id) with
    | none => (.error ⟨404, "Alert not found or access denied"⟩, s)
    | some _ =>
      (.ok (((s.donor_responses.filter
          (fun r => r.alert_id == alert_id)).mergeSort
          (fun a b => decide (b.responded_at ≤ a.responded_at))).take 100), s)

/-- Dashboard payload: one shape per role (server.py lines 419-425 and
440-445). -/
inductive DashboardStats where
  | hospital (total_alerts active_alerts total_responses
      available_responses not_available_responses : Nat)
  | donor (total_responses available_responses
      active_alerts_for_blood_type : Nat) (last_donation : Option Int)
deriving DecidableEq, Repr

/-- `get_dashboard_stats` (server.py lines 392-445).  For hospital staff,
the `$lookup`/`$match`/`$group` aggregation over `donor_responses` reduces
to: keep the responses whose alert belongs to this hospital, group them by
response string, and report the total together with the `"available"` and
`"not_available"` group counts. -/
def getDashboardStats (current_user : User) (s : Store) :
    Except HError DashboardStats × Store :=
  if current_user.role = "hospital_staff" then
    let total_alerts := (s.blood_alerts.filter
      (fun a => a.hospital_id == current_user.id)).length
    let active_alerts := (s.blood_alerts.filter
      (fun a => a.hospital_id == current_user.id && a.status == "active")).length
    let relevant := s.donor_responses.filter
      (fun r => (s.blood_alerts.filter (fun a => a.id == r.alert_id)).any
        (fun a => a.hospital_id == current_user.id))
    (.ok (.hospital total_alerts active_alerts relevant.length
      (relevant.filter (fun r => r.response == "available")).length
      (relevant.filter (fun r => r.response == "not_available")).length), s)
  else
    let total_responses := (s.donor_responses.filter
      (fun r => r.donor_id == current_user.id)).length
    let available_responses := (s.donor_responses.filter
      (fun r => r.donor_id == current_user.id
        && r.response == "available")).length
    let active_alerts := (s.blood_alerts.filter
      (fun a => some a.blood_type == current_user.blood_type
        && a.status == "active")).length
    (.ok (.donor total_responses available_responses active_alerts
      current_user.last_donation_date), s)

/-- `get_mock_emails` (server.py lines 448-456): donors see the emails
addressed to them (newest first, up to 50); hospital staff see all emails
(newest first, up to 100). -/
def getMockEmails (current_user : User) (s : Store) :
    Except HError (List MockEmailNotification) × Store :=
  if current_user.role = "donor" then
    (.ok (((s.email_notifications.filter
        (fun e => e.to_email == current_user.email)).mergeSort
        (fun a b => decide (b.sent_at ≤ a.sent_at))).take 50), s)
  else
    (.ok ((s.email_notifications.mergeSort
        (fun a b => decide (b.sent_at ≤ a.sent_at))).take 100), s)

/-- Forget a user's location field (used to state that donor matching is
independent of stored coordinates). -/
def User.eraseLoc (u : User) : User := { u with location := none }

/-- Replace an alert's search radius (used to state that donor matching is
independent of `radius_km`). -/
def BloodAlert.setRadius (r : Int) (a : BloodAlert) : BloodAlert :=
  { a with radius_km := r }

/-- The list of notifications `notify_matching_donors` generates for the
donors `l`, with ids drawn consecutively from `n`. -/
def emailsFor (alert : BloodAlert) (now : Int) (n : Nat) :
    List User → List MockEmailNotification
  | [] => []
  | d :: ds => mkEmailNotification n d alert now :: emailsFor alert now (n + 1) ds

/-- At most one stored response per (alert, donor) pair. -/
def responsePairUnique (l : List DonorResponse) : Prop :=
  l.Pairwise (fun r1 r2 => ¬(r1.alert_id = r2.alert_id ∧ r1.donor_id = r2.donor_id))

/-- Sample hospital-staff user. -/
def sampleStaff : User :=
  { id := 50, email := "staff@cgh.org", name := "Asha", role := "hospital_staff",
    phone := none, hospital_name := some "City General", hospital_address := none,
    blood_type := none, city := none, location := none,
    last_donation_date := none, is_available := true, created_at := 0 }

/-- Sample matching donor (blood type A+, available, never donated). -/
def sampleDonor : User :=
  { id := 60, email := "amit@x.org", name := "Amit", role := "donor",
    phone := some "111", hospital_name := none, hospital_address := none,
    blood_type := some "A+", city := some "Pune",
    location := some { type := "Point", coordinates := [10, 20] },
    last_donation_date := none, is_available := true, created_at := 0 }

/-- Second matching donor. -/
def sampleDonor2 : User :=
  { id := 61, email := "neha@x.org", name := "Neha", role := "donor",
    phone := none, hospital_name := none, hospital_address := none,
    blood_type := some "A+", city := some "Pune", location := none,
    last_donation_date := some 0, is_available := true, created_at := 0 }

/-- Donor with a different blood type (never matched by A+ alerts). -/
def otherDonor : User :=
  { id := 62, email := "rahul@x.org", name := "Rahul", role := "donor",
    phone := none, hospital_name := none, hospital_address := none,
    blood_type := some "B-", city := some "Pune", location := none,
    last_donation_date := none, is_available := true, created_at := 0 }

/-- Sample active alert for blood type A+, owned by `sampleStaff`. -/
def sampleAlert : BloodAlert :=
  { id := 9, hospital_id := 50, hospital_name := "City General",
    blood_type := "A+", units_needed := 3, urgency_level := "high",
    description := none, location := { type := "Point", coordinates := [0, 0] },
    radius_km := 50, status := "active", created_at := 0,
    expires_at := some 21600 }

/-- An alert that is long expired and not active any more. -/
def expiredAlert : BloodAlert :=
  { id := 11, hospital_id := 50, hospital_name := "City General",
    blood_type := "A+", units_needed := 1, urgency_level := "critical",
    description := some "old", location := { type := "Point", coordinates := [0, 0] },
    radius_km := 50, status := "cancelled", created_at := 0,
    expires_at := some 100 }

/-- Base store used by the concrete witnesses. -/
def baseStore : Store :=
  { users := [sampleStaff, sampleDonor, sampleDonor2, otherDonor],
    blood_alerts := [sampleAlert, expiredAlert],
    donor_responses := [], email_notifications := [], nextId := 200 }

/-- An already-recorded response by `sampleDonor` to `sampleAlert`. -/
def priorResponse : DonorResponse :=
  { id := 150, alert_id := 9, donor_id := 60, donor_name := "Amit",
    donor_email := "amit@x.org", donor_phone := some "111",
    response := "available", message := none, responded_at := 500 }

/-- `baseStore` after `sampleDonor` has already responded to alert 9. -/
def dupStore : Store := { baseStore with donor_responses := [priorResponse] }

/-- Donor number `i` of the large store: all match an O+ alert. -/
def mkDonor (i : Nat) : User :=
  { id := i, email := "donor" ++ toString i ++ "@x.org",
    name := "Donor " ++ toString i, role := "donor", phone := none,
    hospital_name := none, hospital_address := none, blood_type := some "O+",
    city := some "Pune", location := none, last_donation_date := none,
    is_available := true, created_at := 0 }

/-- A store holding 101 donors who all match an O+ alert. -/
def bigStore : Store :=
  { users := (List.range 101).map mkDonor, blood_alerts := [],
    donor_responses := [], email_notifications := [], nextId := 500 }

/-- A concrete O+ alert aimed at `bigStore`. -/
def bigAlert : BloodAlert :=
  { id := 7, hospital_id := 3, hospital_name := "City Hospital",
    blood_type := "O+", units_needed := 2, urgency_level := "critical",
    description := none, location := { type := "Point", coordinates := [0, 0] },
    radius_km := 50, status := "active", created_at := 1000,
    expires_at := some 8200 }

/-- `baseStore` with every user moved to a different concrete location
(only the `location` fields differ from `baseStore`). -/
def movedStore : Store :=
  { baseStore with
    users := baseStore.users.map
      (fun u => { u with
        location := some { type := "Point", coordinates := [77, 12] } }) }

/-! ## General lemmas -/

/-- Folding `send_mock_email_notification` over a donor list appends one
notification per donor (ids consecutive from the current counter) and
touches nothing else in the store. -/
theorem foldlSend_eq (alert : BloodAlert) (now : Int) :
    ∀ (l : List User) (st : Store),
      l.foldl (fun st d => (sendMockEmailNotification d alert now st).2) st
        = { st with
            email_notifications :=
              st.email_notifications ++ emailsFor alert now st.nextId l,
            nextId := st.nextId + l.length } := by
  intro l
  induction l with
  | nil => intro st; simp [emailsFor]
  | cons d ds ih =>
    intro st
    simp only [List.foldl_cons]
    rw [ih]
    simp only [sendMockEmailNotification, emailsFor]
    congr 1
    · simp [List.append_assoc]
    · simp [List.length_cons]; omega

/-- `notify_matching_donors` only appends to `email_notifications`:
the users collection is untouched. -/
theorem notifyMatchingDonors_users (a : BloodAlert) (now : Int) (s : Store) :
    (notifyMatchingDonors a now s).users = s.users := by
  simp [notifyMatchingDonors, foldlSend_eq]

/-- `notify_matching_donors` leaves `blood_alerts` untouched. -/
theorem notifyMatchingDonors_blood_alerts (a : BloodAlert) (now : Int)
    (s : Store) : (notifyMatchingDonors a now s).blood_alerts = s.blood_alerts := by
  simp [notifyMatchingDonors, foldlSend_eq]

/-- `notify_matching_donors` leaves `donor_responses` untouched. -/
theorem notifyMatchingDonors_donor_responses (a : BloodAlert) (now : Int)
    (s : Store) :
    (notifyMatchingDonors a now s).donor_responses = s.donor_responses := by
  simp [notifyMatchingDonors, foldlSend_eq]

/-- The notifications `notify_matching_donors` inserts are exactly one per
donor in the (capped at 100) result of the matching query. -/
theorem notifyMatchingDonors_emails (a : BloodAlert) (now : Int) (s : Store) :
    (notifyMatchingDonors a now s).email_notifications
      = s.email_notifications
        ++ emailsFor a now s.nextId
            ((s.users.filter (userMatches a now)).take 100) := by
  simp [notifyMatchingDonors, foldlSend_eq]

/-- The generated notifications are addressed, in order, to the given
donors' email addresses. -/
theorem emailsFor_map_to_email (a : BloodAlert) (now : Int) :
    ∀ (n : Nat) (l : List User),
      (emailsFor a now n l).map (fun e => e.to_email)
        = l.map (fun u => u.email) := by
  intro n l
  induction l generalizing n with
  | nil => rfl
  | cons d ds ih => simp [emailsFor, mkEmailNotification, ih]

/-- Every generated notification carries the alert's id. -/
theorem emailsFor_alert_id (a : BloodAlert) (now : Int) :
    ∀ (n : Nat) (l : List User) (e : MockEmailNotification),
      e ∈ emailsFor a now n l → e.alert_id = a.id := by
  intro n l
  induction l generalizing n with
  | nil => intro e he; simp [emailsFor] at he
  | cons d ds ih =>
    intro e he
    simp only [emailsFor, List.mem_cons] at he
    rcases he with he | he
    · subst he; rfl
    · exact ih _ e he

/-- `update_one` on a list that splits as `l₁ ++ x :: l₂` with no match in
`l₁` and `x` matching rewrites exactly `x`. -/
theorem updateFirst_append (p : α → Bool) (f : α → α) :
    ∀ (l₁ : List α) (x : α) (l₂ : List α),
      (∀ y ∈ l₁, p y = false) → p x = true →
      updateFirst p f (l₁ ++ x :: l₂) = l₁ ++ f x :: l₂ := by
  intro l₁
  induction l₁ with
  | nil => intro x l₂ _ hx; simp [updateFirst, hx]
  | cons a t ih =>
    intro x l₂ h1 hx
    have ha : p a = false := h1 a (by simp)
    simp only [List.cons_append, updateFirst, ha]
    simp only [Bool.false_eq_true, if_false, List.append_eq]
    rw [ih x l₂ (fun y hy => h1 y (by simp [hy])) hx]

/-- If `find?` locates `x` and the rewrite `f` keeps `x` matching, then
`find?` after `update_one` returns the rewritten `x`. -/
theorem find?_updateFirst (p : α → Bool) (f : α → α) :
    ∀ (l : List α) (x : α), l.find? p = some x → p (f x) = true →
      (updateFirst p f l).find? p = some (f x) := by
  intro l
  induction l with
  | nil => intro x h _; simp [List.find?] at h
  | cons a t ih =>
    intro x h hf
    by_cases hpa : p a = true
    · rw [List.find?_cons_of_pos _ hpa] at h
      injection h with h
      subst h
      simp [updateFirst, hpa, List.find?_cons_of_pos _ hf]
    · have hpa' : p a = false := by simpa using hpa
      rw [List.find?_cons_of_neg _ (by simp [hpa'])] at h
      simp [updateFirst, hpa']
      exact ih x h hf

/-- Two users that agree on everything but their location are matched the
same way by the donor query and share their email address. -/
theorem userMatches_eraseLoc_congr (a : BloodAlert) (now : Int) {u v : User}
    (h : u.eraseLoc = v.eraseLoc) :
    userMatches a now u = userMatches a now v ∧ u.email = v.email := by
  have hrole : u.role = v.role := by
    simpa [User.eraseLoc] using congrArg User.role h
  have hbt : u.blood_type = v.blood_type := by
    simpa [User.eraseLoc] using congrArg User.blood_type h
  have hav : u.is_available = v.is_available := by
    simpa [User.eraseLoc] using congrArg User.is_available h
  have hld : u.last_donation_date = v.last_donation_date := by
    simpa [User.eraseLoc] using congrArg User.last_donation_date h
  have hem : u.email = v.email := by
    simpa [User.eraseLoc] using congrArg User.email h
  exact ⟨by simp [userMatches, hrole, hbt, hav, hld], hem⟩

/-- The emails of the query's matches depend on the stored users only
through their location-erased part. -/
theorem filter_map_email_congr (a : BloodAlert) (now : Int) :
    ∀ (l₁ l₂ : List User), l₁.map User.eraseLoc = l₂.map User.eraseLoc →
      (l₁.filter (userMatches a now)).map (fun u => u.email)
        = (l₂.filter (userMatches a now)).map (fun u => u.email) := by
  intro l₁
  induction l₁ with
  | nil =>
    intro l₂ h
    cases l₂ with
    | nil => rfl
    | cons v t₂ => simp at h
  | cons u t ih =>
    intro l₂ h
    cases l₂ with
    | nil => simp at h
    | cons v t₂ =>
      simp only [List.map_cons, List.cons.injEq] at h
      obtain ⟨hhead, htail⟩ := h
      obtain ⟨hm, he⟩ := userMatches_eraseLoc_congr a now hhead
      rw [List.filter_cons, List.filter_cons, ← hm]
      by_cases hval : userMatches a now u = true
      · simp [hval, he, ih t₂ htail]
      · simp only [Bool.not_eq_true] at hval
        simp [hval, ih t₂ htail]

/-- The donor query reads nothing from the alert but its blood type; in
particular it is invariant under changing the search radius. -/
theorem userMatches_setRadius (a : BloodAlert) (r : Int) (now : Int) :
    userMatches (a.setRadius r) now = userMatches a now := rfl

/-! ## Claims -/

/-- C1 (amended): for every alert, `notify_matching_donors` inserts exactly
one `MockEmailNotification` (carrying the alert's id) per donor among the
first 100 users matching the query (role donor, equal blood type,
available, no recorded donation or one strictly older than 90 days) — the
donor query is capped at 100 documents by `to_list(100)`; whenever at most
100 users match, that is exactly one notification per matching user, and
never a notification for any other user. -/
theorem C1_one_notification_per_match (a : BloodAlert) (now : Int)
    (s : Store) :
    ∃ new,
      (notifyMatchingDonors a now s).email_notifications
          = s.email_notifications ++ new
      ∧ new.map (fun e => e.to_email)
          = ((s.users.filter (userMatches a now)).take 100).map
              (fun u => u.email)
      ∧ (∀ e ∈ new, e.alert_id = a.id)
      ∧ ((s.users.filter (userMatches a now)).length ≤ 100 →
          new.map (fun e => e.to_email)
            = (s.users.filter (userMatches a now)).map (fun u => u.email)) := by
  refine ⟨emailsFor a now s.nextId
      ((s.users.filter (userMatches a now)).take 100),
    notifyMatchingDonors_emails a now s,
    emailsFor_map_to_email a now _ _,
    fun e he => emailsFor_alert_id a now _ _ e he, ?_⟩
  intro h
  rw [List.take_of_length_le h, emailsFor_map_to_email a now _ _]

/-- Witness for C1: on the concrete `baseStore`, the two A+ donors are
matched and notified, the B- donor and the staff member are not. -/
theorem C1_one_notification_per_match_witness :
    ∃ new,
      (notifyMatchingDonors sampleAlert 1000 baseStore).email_notifications
          = baseStore.email_notifications ++ new
      ∧ new.map (fun e => e.to_email)
          = ((baseStore.users.filter (userMatches sampleAlert 1000)).take 100).map
              (fun u => u.email)
      ∧ (∀ e ∈ new, e.alert_id = sampleAlert.id)
      ∧ ((baseStore.users.filter (userMatches sampleAlert 1000)).length ≤ 100 →
          new.map (fun e => e.to_email)
            = (baseStore.users.filter (userMatches sampleAlert 1000)).map
                (fun u => u.email)) :=
  C1_one_notification_per_match sampleAlert 1000 baseStore

set_option maxRecDepth 100000 in
/-- Counterexample to C1 as stated: in a store with 101 matching donors,
`to_list(100)` truncates the query, so donor number 100 is stored,
matches the alert, yet receives no notification — only 100 notifications
are written for the alert. -/
theorem C1_counterexample :
    (mkDonor 100) ∈ bigStore.users
      ∧ userMatches bigAlert 2000 (mkDonor 100) = true
      ∧ ((notifyMatchingDonors bigAlert 2000 bigStore).email_notifications.filter
          (fun e => e.alert_id == bigAlert.id)).length = 100
      ∧ ((notifyMatchingDonors bigAlert 2000 bigStore).email_notifications.filter
          (fun e => e.to_email == (mkDonor 100).email)).length = 0 :=
  ⟨by decide, by rfl, by rfl, by rfl⟩

/-- C5: a created alert expires 2 hours after creation for urgency
`critical`, 6 hours for `high`, and 24 hours for any other urgency value
(including `medium`). -/
theorem C5_expiry_from_urgency (d : BloodAlertCreate) (u : User) (now : Int)
    (s : Store) (h : u.role = "hospital_staff") :
    ∃ a, (createBloodAlert d u now s).1 = .ok a
      ∧ a.expires_at = some (now +
          (if d.urgency_level = "critical" then 2 * 3600
           else if d.urgency_level = "high" then 6 * 3600
           else 24 * 3600)) := by
  simp [createBloodAlert, h]
  split_ifs <;> simp

/-- Witness for C5: a concrete critical alert created at time 0 expires at
7200 seconds. -/
theorem C5_expiry_from_urgency_witness :
    ∃ a, (createBloodAlert ⟨"A+", 3, "critical", none, 50⟩ sampleStaff 0
          baseStore).1 = .ok a
      ∧ a.expires_at = some (0 +
          (if ("critical" : String) = "critical" then 2 * 3600
           else if ("critical" : String) = "high" then 6 * 3600
           else 24 * 3600)) :=
  C5_expiry_from_urgency ⟨"A+", 3, "critical", none, 50⟩ sampleStaff 0
    baseStore rfl

/-- C10: `get_alert_details` enforces no ownership or role restriction: its
result is the same for any two authenticated users, it returns any stored
alert with the requested id, and it fails (with 404) exactly when no alert
has that id. -/
theorem C10_alert_details_role_blind (alert_id : Nat) (u₁ u₂ : User)
    (s : Store) :
    getAlertDetails alert_id u₁ s = getAlertDetails alert_id u₂ s
    ∧ (∀ a, s.blood_alerts.find? (fun b => b.id == alert_id) = some a →
        getAlertDetails alert_id u₁ s = (.ok a, s))
    ∧ (s.blood_alerts.find? (fun b => b.id == alert_id) = none →
        getAlertDetails alert_id u₁ s = (.error ⟨404, "Alert not found"⟩, s)) := by
  refine ⟨rfl, ?_, ?_⟩
  · intro a ha; simp [getAlertDetails, ha]
  · intro ha; simp [getAlertDetails, ha]

/-- Witness for C10: a donor and a staff member both retrieve alert 9. -/
theorem C10_alert_details_role_blind_witness :
    getAlertDetails 9 sampleDonor baseStore = (.ok sampleAlert, baseStore) :=
  (C10_alert_details_role_blind 9 sampleDonor sampleStaff baseStore).2.1
    sampleAlert (by rfl)

/-- C7: alert expiry is never enforced.  Whenever the role check, the
alert-existence check and the duplicate-response check pass,
`respond_to_alert` succeeds — for every current time `now`, every stored
`expires_at` and every stored `status` of the alert (both are left
completely unconstrained below). -/
theorem C7_expiry_never_checked (alert_id : Nat) (rd : DonorResponseCreate)
    (u : User) (now : Int) (s : Store) (a : BloodAlert)
    (hrole : u.role = "donor")
    (hfind : s.blood_alerts.find? (fun b => b.id == alert_id) = some a)
    (hdup : s.donor_responses.find?
        (fun r => r.alert_id == alert_id && r.donor_id == u.id) = none) :
    ∃ r, (respondToAlert alert_id rd u now s).1 = .ok r := by
  simp only [respondToAlert, hrole, hfind, hdup]
  simp

/-- Witness for C7: a donor successfully responds, long past expiry, to an
alert whose expiry passed at time 100 and whose status is `cancelled`. -/
theorem C7_expiry_never_checked_witness :
    (expiredAlert.expires_at = some 100
        ∧ expiredAlert.status = "cancelled"
        ∧ (100 : Int) < 10000000)
      ∧ ∃ r, (respondToAlert 11 ⟨"available", none⟩ sampleDonor 10000000
          baseStore).1 = .ok r :=
  ⟨⟨rfl, rfl, by decide⟩,
    C7_expiry_never_checked 11 ⟨"available", none⟩ sampleDonor 10000000
      baseStore expiredAlert rfl (by rfl) (by rfl)⟩

/-- C2: for a donor and an existing alert, `respond_to_alert` fails with
400 exactly when this donor already responded to this alert; that failure
leaves the store untouched; otherwise exactly the new response for this
(alert, donor) pair is appended, so at-most-one-response-per-pair is
preserved and existing responses are never modified. -/
theorem C2_one_response_per_pair (alert_id : Nat) (rd : DonorResponseCreate)
    (u : User) (now : Int) (s : Store) (a : BloodAlert)
    (hrole : u.role = "donor")
    (hfind : s.blood_alerts.find? (fun b => b.id == alert_id) = some a) :
    ((respondToAlert alert_id rd u now s).1
        = .error ⟨400, "You have already responded to this alert"⟩
      ↔ (s.donor_responses.find?
          (fun r => r.alert_id == alert_id && r.donor_id == u.id)).isSome = true)
    ∧ ((s.donor_responses.find?
          (fun r => r.alert_id == alert_id && r.donor_id == u.id)).isSome = true →
        (respondToAlert alert_id rd u now s).2 = s)
    ∧ (s.donor_responses.find?
          (fun r => r.alert_id == alert_id && r.donor_id == u.id) = none →
        ∃ r, (respondToAlert alert_id rd u now s).1 = .ok r
          ∧ r.alert_id = alert_id ∧ r.donor_id = u.id
          ∧ (respondToAlert alert_id rd u now s).2.donor_responses
              = s.donor_responses ++ [r])
    ∧ (responsePairUnique s.donor_responses →
        responsePairUnique (respondToAlert alert_id rd u now s).2.donor_responses)
    ∧ (∀ (d : BloodAlertCreate) (u' : User) (now' : Int) (s' : Store),
        (createBloodAlert d u' now' s').2.donor_responses
          = s'.donor_responses) := by
  have hcreate : ∀ (d : BloodAlertCreate) (u' : User) (now' : Int)
      (s' : Store),
      (createBloodAlert d u' now' s').2.donor_responses
        = s'.donor_responses := by
    intro d u' now' s'
    by_cases h : u'.role = "hospital_staff"
    · simp [createBloodAlert, h, notifyMatchingDonors_donor_responses]
    · simp [createBloodAlert, h]
  cases hdup : s.donor_responses.find?
      (fun r => r.alert_id == alert_id && r.donor_id == u.id) with
  | some r0 =>
    have hres : respondToAlert alert_id rd u now s
        = (.error ⟨400, "You have already responded to this alert"⟩, s) := by
      simp [respondToAlert, hrole, hfind, hdup]
    refine ⟨?_, ?_, ?_, ?_, hcreate⟩
    · simp [hres, hdup]
    · intro _; simp [hres]
    · intro h
      exact Option.noConfusion h
    · intro hu; simpa [hres] using hu
  | none =>
    have hresp : (respondToAlert alert_id rd u now s).2.donor_responses
        = s.donor_responses
          ++ [⟨s.nextId, alert_id, u.id, u.name, u.email, u.phone,
               rd.response, rd.message, now⟩] := by
      simp only [respondToAlert, hrole, hfind, hdup]
      simp only [ne_eq, not_true_eq_false, if_false]
      split <;> rfl
    have hok : (respondToAlert alert_id rd u now s).1
        = .ok ⟨s.nextId, alert_id, u.id, u.name, u.email, u.phone,
               rd.response, rd.message, now⟩ := by
      simp [respondToAlert, hrole, hfind, hdup]
    refine ⟨?_, ?_, ?_, ?_, hcreate⟩
    · simp [hok, hdup]
    · intro h; simp at h
    · intro _
      exact ⟨_, hok, rfl, rfl, hresp⟩
    · intro hu
      rw [hresp]
      unfold responsePairUnique at hu ⊢
      rw [List.pairwise_append]
      refine ⟨hu, List.pairwise_singleton _ _, ?_⟩
      intro r1 hr1 r2 hr2
      simp only [List.mem_singleton] at hr2
      subst hr2
      have hnot := List.find?_eq_none.mp hdup r1 hr1
      simpa using hnot

/-- Witness for C2: on a store where the donor already responded to alert
9, the call fails with exactly the 400 duplicate error. -/
theorem C2_one_response_per_pair_witness :
    (respondToAlert 9 ⟨"available", none⟩ sampleDonor 999 dupStore).1
      = .error ⟨400, "You have already responded to this alert"⟩ :=
  ((C2_one_response_per_pair 9 ⟨"available", none⟩ sampleDonor 999 dupStore
      sampleAlert rfl (by rfl)).1).mpr (by rfl)

/-- C3: when a donor's `respond_to_alert` call succeeds with response
`"available"`, the donor's stored user record afterwards has
`is_available = false` (and its last donation date stamped to now). -/
theorem C3_available_flips_availability (alert_id : Nat) (msg : Option String)
    (u : User) (now : Int) (s : Store) (a : BloodAlert) (u₀ : User)
    (hrole : u.role = "donor")
    (hfind : s.blood_alerts.find? (fun b => b.id == alert_id) = some a)
    (hdup : s.donor_responses.find?
        (fun r => r.alert_id == alert_id && r.donor_id == u.id) = none)
    (huser : s.users.find? (fun v => v.id == u.id) = some u₀) :
    (respondToAlert alert_id ⟨"available", msg⟩ u now s).2.users.find?
        (fun v => v.id == u.id)
      = some { u₀ with is_available := false, last_donation_date := some now } := by
  have husers : (respondToAlert alert_id ⟨"available", msg⟩ u now s).2.users
      = updateFirst (fun v => v.id == u.id)
          (fun v => { v with is_available := false,
                             last_donation_date := some now }) s.users := by
    simp [respondToAlert, hrole, hfind, hdup]
  rw [husers]
  exact find?_updateFirst _ _ s.users u₀ huser
    (by simpa using List.find?_some huser)

/-- Witness for C3: the second sample donor responds `"available"` to alert
9 and their stored record comes back unavailable with the donation date
stamped. -/
theorem C3_available_flips_availability_witness :
    (respondToAlert 9 ⟨"available", some "omw"⟩ sampleDonor2 1234
        baseStore).2.users.find? (fun v => v.id == sampleDonor2.id)
      = some { sampleDonor2 with is_available := false,
                                 last_donation_date := some 1234 } :=
  C3_available_flips_availability 9 (some "omw") sampleDonor2 1234 baseStore
    sampleAlert sampleDonor2 rfl (by rfl) (by rfl) (by rfl)

/-- C4: stored alerts keep the `status` (`"active"` from creation) and
`expires_at` they were given at creation.  Donor responses leave the
alert collection untouched; alert creation appends one new alert (created
with status `"active"`) and preserves every existing alert, and fails
without touching the store for non-staff; alert listing, alert detail,
response listing, dashboard and email listing return the store unchanged. -/
theorem C4_alert_status_expiry_immutable :
    (∀ (alert_id : Nat) (rd : DonorResponseCreate) (u : User) (now : Int)
        (s : Store),
        (respondToAlert alert_id rd u now s).2.blood_alerts = s.blood_alerts)
    ∧ (∀ (d : BloodAlertCreate) (u : User) (now : Int) (s : Store)
          (a : BloodAlert),
        (createBloodAlert d u now s).1 = .ok a →
        (createBloodAlert d u now s).2.blood_alerts = s.blood_alerts ++ [a]
          ∧ a.status = "active")
    ∧ (∀ (d : BloodAlertCreate) (u : User) (now : Int) (s : Store),
        u.role ≠ "hospital_staff" → (createBloodAlert d u now s).2 = s)
    ∧ (∀ (u : User) (s : Store), (getBloodAlerts u s).2 = s)
    ∧ (∀ (i : Nat) (u : User) (s : Store), (getAlertDetails i u s).2 = s)
    ∧ (∀ (i : Nat) (u : User) (s : Store), (getAlertResponses i u s).2 = s)
    ∧ (∀ (u : User) (s : Store), (getDashboardStats u s).2 = s)
    ∧ (∀ (u : User) (s : Store), (getMockEmails u s).2 = s) := by
  refine ⟨?_, ?_, ?_, ?_, ?_, ?_, ?_, ?_⟩
  · intro alert_id rd u now s
    by_cases hrole : u.role = "donor"
    · cases hfind : s.blood_alerts.find? (fun b => b.id == alert_id) with
      | none => simp [respondToAlert, hrole, hfind]
      | some a =>
        cases hdup : s.donor_responses.find?
            (fun r => r.alert_id == alert_id && r.donor_id == u.id) with
        | some r0 => simp [respondToAlert, hrole, hfind, hdup]
        | none =>
          simp only [respondToAlert, hrole, hfind, hdup, ne_eq,
            not_true_eq_false, if_false]
          split <;> rfl
    · simp [respondToAlert, hrole]
  · intro d u now s a hok
    by_cases h : u.role = "hospital_staff"
    · simp only [createBloodAlert, h, ne_eq, not_true_eq_false, if_false] at hok ⊢
      simp only [Except.ok.injEq] at hok
      subst hok
      exact ⟨by rw [notifyMatchingDonors_blood_alerts], rfl⟩
    · simp [createBloodAlert, h] at hok
  · intro d u now s h
    simp [createBloodAlert, h]
  · intro u s
    simp only [getBloodAlerts]
    split <;> rfl
  · intro i u s
    simp only [getAlertDetails]
    split <;> rfl
  · intro i u s
    simp only [getAlertResponses]
    split
    · rfl
    · split <;> rfl
  · intro u s
    simp only [getDashboardStats]
    split <;> rfl
  · intro u s
    simp only [getMockEmails]
    split <;> rfl

/-- Witness for C4: a concrete donor response leaves the alert collection
of the base store as it was. -/
theorem C4_alert_status_expiry_immutable_witness :
    (respondToAlert 9 ⟨"available", none⟩ sampleDonor 42 baseStore).2.blood_alerts
      = baseStore.blood_alerts :=
  C4_alert_status_expiry_immutable.1 9 ⟨"available", none⟩ sampleDonor 42
    baseStore

/-- C8: a successful `respond_to_alert` never touches the alert or email
collections; with a response other than `"available"` it leaves every user
record unchanged; with `"available"` it rewrites exactly the responding
donor's record (the first record with their id), changing only
`is_available` (to false) and `last_donation_date` (to the response time) —
and a donor whose last donation date is `now` fails the 90-day recency
check at every time up to `now + 90` days. -/
theorem C8_available_response_frame (alert_id : Nat) (msg : Option String)
    (rsp : String) (u : User) (now : Int) (s : Store) (a : BloodAlert)
    (hrole : u.role = "donor")
    (hfind : s.blood_alerts.find? (fun b => b.id == alert_id) = some a)
    (hdup : s.donor_responses.find?
        (fun r => r.alert_id == alert_id && r.donor_id == u.id) = none) :
    ((respondToAlert alert_id ⟨rsp, msg⟩ u now s).2.blood_alerts
        = s.blood_alerts
      ∧ (respondToAlert alert_id ⟨rsp, msg⟩ u now s).2.email_notifications
          = s.email_notifications)
    ∧ (rsp ≠ "available" →
        (respondToAlert alert_id ⟨rsp, msg⟩ u now s).2.users = s.users)
    ∧ (∀ (l₁ l₂ : List User) (u₀ : User),
        rsp = "available" → s.users = l₁ ++ u₀ :: l₂ →
        (∀ v ∈ l₁, v.id ≠ u.id) → u₀.id = u.id →
        (respondToAlert alert_id ⟨rsp, msg⟩ u now s).2.users
          = l₁ ++ { u₀ with is_available := false,
                            last_donation_date := some now } :: l₂)
    ∧ (∀ t : Int, t ≤ now + 90 * 86400 →
        donationRecencyOk t (some now) = false) := by
  refine ⟨⟨?_, ?_⟩, ?_, ?_, ?_⟩
  · simp only [respondToAlert, hrole, hfind, hdup, ne_eq, not_true_eq_false,
      if_false]
    split <;> rfl
  · simp only [respondToAlert, hrole, hfind, hdup, ne_eq, not_true_eq_false,
      if_false]
    split <;> rfl
  · intro h
    simp [respondToAlert, hrole, hfind, hdup, h]
  · intro l₁ l₂ u₀ hr hsplit hl₁ hid
    subst hr
    have husers : (respondToAlert alert_id ⟨"available", msg⟩ u now s).2.users
        = updateFirst (fun v => v.id == u.id)
            (fun v => { v with is_available := false,
                               last_donation_date := some now }) s.users := by
      simp [respondToAlert, hrole, hfind, hdup]
    rw [husers, hsplit]
    exact updateFirst_append _ _ l₁ u₀ l₂
      (fun y hy => by simpa using hl₁ y hy) (by simpa using hid)
  · intro t ht
    simp only [donationRecencyOk, decide_eq_false_iff_not]
    omega

/-- Witness for C8: the second sample donor's `"available"` response
rewrites exactly their record in the base store's user list. -/
theorem C8_available_response_frame_witness :
    (respondToAlert 9 ⟨"available", none⟩ sampleDonor2 1234
        baseStore).2.users
      = [sampleStaff, sampleDonor]
        ++ { sampleDonor2 with is_available := false,
                               last_donation_date := some 1234 } :: [otherDonor] :=
  (C8_available_response_frame 9 none "available" sampleDonor2 1234 baseStore
      sampleAlert rfl (by rfl) (by rfl)).2.2.1
    [sampleStaff, sampleDonor] [otherDonor] sampleDonor2 rfl (by rfl)
    (by decide) rfl

/-- C9: `respond_to_alert` validates nothing about the response string: any
string is recorded verbatim, only the exact string `"available"` triggers
the availability update, and on a concrete store a `"maybe"` response makes
the hospital dashboard report 1 total response but 0 available and 0
not-available responses. -/
theorem C9_no_response_validation (alert_id : Nat) (rsp : String)
    (msg : Option String) (u : User) (now : Int) (s : Store) (a : BloodAlert)
    (hrole : u.role = "donor")
    (hfind : s.blood_alerts.find? (fun b => b.id == alert_id) = some a)
    (hdup : s.donor_responses.find?
        (fun r => r.alert_id == alert_id && r.donor_id == u.id) = none) :
    (∃ r, (respondToAlert alert_id ⟨rsp, msg⟩ u now s).1 = .ok r
        ∧ r.response = rsp)
    ∧ (rsp ≠ "available" →
        (respondToAlert alert_id ⟨rsp, msg⟩ u now s).2.users = s.users)
    ∧ ((getDashboardStats sampleStaff
          (respondToAlert 9 ⟨"maybe", none⟩ sampleDonor 777 baseStore).2).1
        = .ok (.hospital 2 1 1 0 0)
      ∧ 0 + 0 < 1) := by
  refine ⟨⟨⟨s.nextId, alert_id, u.id, u.name, u.email, u.phone, rsp, msg, now⟩,
      by simp [respondToAlert, hrole, hfind, hdup], rfl⟩, ?_, by rfl, by decide⟩
  intro h
  simp [respondToAlert, hrole, hfind, hdup, h]

/-- Witness for C9: the string `"maybe"` is accepted and stored verbatim. -/
theorem C9_no_response_validation_witness :
    ∃ r, (respondToAlert 9 ⟨"maybe", none⟩ sampleDonor 777 baseStore).1
        = .ok r
      ∧ r.response = "maybe" :=
  (C9_no_response_validation 9 "maybe" none sampleDonor 777 baseStore
      sampleAlert rfl (by rfl) (by rfl)).1

/-- C6: every created alert has its location pinned to the GeoJSON point
with coordinates [0, 0], and the set of notified donors (identified by the
addresses of the inserted notifications) is the same across any two stores
that differ only in the users' location fields and across any two search
radii: `calculate_distance` is never consulted. -/
theorem C6_matching_ignores_geography :
    (∀ (d : BloodAlertCreate) (u : User) (now : Int) (s : Store)
        (a : BloodAlert),
        (createBloodAlert d u now s).1 = .ok a →
        a.location = { type := "Point", coordinates := [0, 0] })
    ∧ (∀ (a : BloodAlert) (now : Int) (r₁ r₂ : Int) (s₁ s₂ : Store),
        s₁.users.map User.eraseLoc = s₂.users.map User.eraseLoc →
        ((notifyMatchingDonors (a.setRadius r₁) now s₁).email_notifications.drop
            s₁.email_notifications.length).map (fun e => e.to_email)
          = ((notifyMatchingDonors (a.setRadius r₂) now
              s₂).email_notifications.drop
              s₂.email_notifications.length).map (fun e => e.to_email)) := by
  constructor
  · intro d u now s a hok
    by_cases h : u.role = "hospital_staff"
    · simp only [createBloodAlert, h, ne_eq, not_true_eq_false, if_false,
        Except.ok.injEq] at hok
      subst hok
      rfl
    · simp [createBloodAlert, h] at hok
  · intro a now r₁ r₂ s₁ s₂ h
    rw [notifyMatchingDonors_emails, notifyMatchingDonors_emails,
      List.drop_left, List.drop_left, emailsFor_map_to_email,
      emailsFor_map_to_email]
    simp only [userMatches_setRadius]
    rw [List.map_take, List.map_take]
    exact congrArg (List.take 100) (filter_map_email_congr a now s₁.users
      s₂.users h)

/-- Witness for C6: moving every user of the base store and changing the
radius leaves the notified addresses identical. -/
theorem C6_matching_ignores_geography_witness :
    ((notifyMatchingDonors (sampleAlert.setRadius 1) 1000
        baseStore).email_notifications.drop
        baseStore.email_notifications.length).map (fun e => e.to_email)
      = ((notifyMatchingDonors (sampleAlert.setRadius 999) 1000
          movedStore).email_notifications.drop
          movedStore.email_notifications.length).map (fun e => e.to_email) :=
  C6_matching_ignores_geography.2 sampleAlert 1000 1 999 baseStore movedStore
    (by decide)
